import Mathlib

/-
Verification of the epiforecast repository's visible source,
`src/epiforecast/src/epiforecast_types.hpp`.  The header consists of six
C++ alias declarations:

  using Time = double;
  using Observation = double;
  using Mean = double;
  using SD = double;
  using LogLikelihood = double;
  using Rp = double;

and nothing else (comments aside): no #include directive, no include guard,
no function, no object.  The embedding below models

  - the value space of the builtin `double` as the 2^64 bit patterns of an
    IEEE-754 binary64 value (`Double`), with the NaN / infinity patterns
    picked out by their exponent and fraction fields;
  - each alias as a transparent Lean abbreviation of `Double`, matching the
    transparency of a C++ `using` alias;
  - the header itself as a list of declarations (`headerDecls`) together
    with a small elaborator (`processDecls`) that threads a typedef
    environment through the declarations the way a C++ translation unit
    does: an alias declaration binds its name (re-binding a name to the
    same type is allowed, to a different type is an error), a function
    declaration checks its types, and an #include cannot be resolved when
    the header is processed standalone.
-/

namespace Epiforecast

/-- The value space of the builtin C++ `double`: the 2^64 bit patterns of an
IEEE-754 binary64 floating-point value. -/
def Double : Type := Fin (2 ^ 64)

/-- Alias from the header: `using Time = double;` (transparent, as in C++). -/
abbrev Time : Type := Double

/-- Alias from the header: `using Observation = double;`. -/
abbrev Observation : Type := Double

/-- Alias from the header: `using Mean = double;`. -/
abbrev Mean : Type := Double

/-- Alias from the header: `using SD = double;`. -/
abbrev SD : Type := Double

/-- Alias from the header: `using LogLikelihood = double;`. -/
abbrev LogLikelihood : Type := Double

/-- Alias from the header: `using Rp = double;`. -/
abbrev Rp : Type := Double

/-- The exponent field of a binary64 bit pattern: bits 62..52. -/
def expBits (d : Double) : Nat := d.val / 2 ^ 52 % 2 ^ 11

/-- The fraction field of a binary64 bit pattern: bits 51..0. -/
def fracBits (d : Double) : Nat := d.val % 2 ^ 52

/-- A binary64 bit pattern denotes a NaN iff its exponent field is all ones
and its fraction field is nonzero. -/
def isNaN64 (d : Double) : Bool := expBits d == 2047 && fracBits d != 0

/-- A binary64 bit pattern denotes an infinity iff its exponent field is all
ones and its fraction field is zero. -/
def isInf64 (d : Double) : Bool := expBits d == 2047 && fracBits d == 0

/-- The canonical quiet-NaN bit pattern 0x7FF8000000000000. -/
def quietNaN : Double := ⟨0x7FF8000000000000, by decide⟩

/-- The bit pattern of +infinity, 0x7FF0000000000000. -/
def posInf : Double := ⟨0x7FF0000000000000, by decide⟩

/-- The bit pattern of -infinity, 0xFFF0000000000000. -/
def negInf : Double := ⟨0xFFF0000000000000, by decide⟩

/-- A C++ type as the header can mention one: the builtin `double`, or a
named (user-declared) type. -/
inductive CType : Type where
  | double : CType
  | named : String → CType
  deriving DecidableEq

/-- A C++ header declaration, as far as this header goes: an #include
directive, an alias declaration `using n = t;`, or a function declaration. -/
inductive Decl : Type where
  | incl : String → Decl
  | usingAlias : String → CType → Decl
  | fn : String → CType → List CType → Decl
  deriving DecidableEq

/-- Is the declaration an alias declaration? -/
def Decl.isAlias : Decl → Bool
  | Decl.usingAlias _ _ => true
  | _ => false

/-- Is the declaration a function declaration? -/
def Decl.isFn : Decl → Bool
  | Decl.fn _ _ _ => true
  | _ => false

/-- Is the declaration an #include directive? -/
def Decl.isIncl : Decl → Bool
  | Decl.incl _ => true
  | _ => false

/-- The declarations of `epiforecast_types.hpp`, in source order.  The file
holds exactly these six alias declarations and nothing else: no #include,
no include guard, no function. -/
def headerDecls : List Decl :=
  [ Decl.usingAlias "Time" CType.double,
    Decl.usingAlias "Observation" CType.double,
    Decl.usingAlias "Mean" CType.double,
    Decl.usingAlias "SD" CType.double,
    Decl.usingAlias "LogLikelihood" CType.double,
    Decl.usingAlias "Rp" CType.double ]

/-- The (name, type) pair of an alias declaration. -/
def aliasOf : Decl → Option (String × CType)
  | Decl.usingAlias n t => some (n, t)
  | _ => none

/-- The alias bindings the header declares. -/
def headerAliases : List (String × CType) := headerDecls.filterMap aliasOf

/-- A typedef environment: the alias names a translation unit has bound so
far, each with the type it stands for. -/
abbrev TypedefEnv : Type := List (String × CType)

/-- Look an alias name up in a typedef environment. -/
def lookupTy (env : TypedefEnv) (n : String) : Option CType :=
  (env.find? fun p => p.1 == n).map Prod.snd

/-- A mentioned type is well formed when it is the builtin `double` or a
name the environment has bound. -/
def tyWF (env : TypedefEnv) : CType → Bool
  | CType.double => true
  | CType.named s => (lookupTy env s).isSome

/-- Bind an alias name, as C++ does: a fresh name is added; re-declaring a
name bound to the same type is a no-op; re-declaring it to a different type
is an error. -/
def declareAlias (env : TypedefEnv) (n : String) (t : CType) : Option TypedefEnv :=
  match lookupTy env n with
  | none => some (env ++ [(n, t)])
  | some t0 => if t0 = t then some env else none

/-- Process one declaration against a typedef environment.  An #include
cannot be resolved when the translation unit is processed standalone; an
alias declaration checks its right-hand type and binds its name; a function
declaration checks its return and argument types. -/
def processDecl (env : TypedefEnv) : Decl → Option TypedefEnv
  | Decl.incl _ => none
  | Decl.usingAlias n t => if tyWF env t then declareAlias env n t else none
  | Decl.fn _ ret args => if tyWF env ret && args.all (tyWF env) then some env else none

/-- Process a list of declarations in order, threading the environment. -/
def processDecls : List Decl → TypedefEnv → Option TypedefEnv
  | [], env => some env
  | d :: ds, env => (processDecl env d).bind (processDecls ds)

/-- The typedef environment the header produces when processed standalone
from the empty environment. -/
def headerEnv : TypedefEnv := (processDecls headerDecls []).getD []

/-- The types a declaration mentions on its right-hand side. -/
def declTypes : Decl → List CType
  | Decl.incl _ => []
  | Decl.usingAlias _ t => [t]
  | Decl.fn _ ret args => ret :: args

/-- Every type the header's declarations reference. -/
def referencedTypes (ds : List Decl) : List CType := (ds.map declTypes).flatten

/-- The operations (function declarations) a header exports. -/
def headerOperations (ds : List Decl) : List Decl := ds.filter Decl.isFn

/-- The state of a program that includes the header: the compile-time
typedef environment together with a runtime state of arbitrary type. -/
structure ProgState (σ : Type) : Type where
  typedefs : TypedefEnv
  runtime : σ

/-- Include the header into a program state: its declarations are processed
against the typedef environment; the runtime state is not touched. -/
def includeHeader {σ : Type} (s : ProgState σ) : Option (ProgState σ) :=
  (processDecls headerDecls s.typedefs).map fun e =>
    { typedefs := e, runtime := s.runtime }

/-- Claim C1: each of the alias names Time, Observation, Mean, SD,
LogLikelihood and Rp declared in the header resolves to the 64-bit
double-precision floating-point type: looking each of the six names up in
the environment the header elaborates to yields exactly `CType.double`. -/
theorem C1_aliases_resolve_to_double :
    lookupTy headerEnv "Time" = some CType.double ∧
    lookupTy headerEnv "Observation" = some CType.double ∧
    lookupTy headerEnv "Mean" = some CType.double ∧
    lookupTy headerEnv "SD" = some CType.double ∧
    lookupTy headerEnv "LogLikelihood" = some CType.double ∧
    lookupTy headerEnv "Rp" = some CType.double := by
  decide

/-- Claim C2, counterexample: the header does not contain seven scalar type
aliases; the number of alias declarations it contains is not equal to 7. -/
theorem C2_not_seven_aliases : (headerAliases.length == 7) = false := by
  decide

/-- Claim C2 as amended: the visible source is a single header containing
exactly six scalar type aliases, namely Time, Observation, Mean, SD,
LogLikelihood and Rp, each bound to the double-precision floating-point
type. -/
theorem C2_six_aliases :
    headerAliases =
      [("Time", CType.double), ("Observation", CType.double),
       ("Mean", CType.double), ("SD", CType.double),
       ("LogLikelihood", CType.double), ("Rp", CType.double)] ∧
    headerAliases.length = 6 := by
  exact ⟨rfl, rfl⟩

/-- Claim C3: every alias in the header is a transparent synonym of
`double`: each alias type and `Double` are the same type (so their
embeddings are equal and every value of an alias type is bit-for-bit a
value of `double`), and each declared alias binds its name to exactly
`CType.double`. -/
theorem C3_transparent_synonyms :
    Time = Double ∧ Observation = Double ∧ Mean = Double ∧ SD = Double ∧
    LogLikelihood = Double ∧ Rp = Double ∧
    headerAliases.all (fun p => p.2 == CType.double) = true :=
  ⟨rfl, rfl, rfl, rfl, rfl, rfl, by decide⟩

/-- Claim C4: no invariant restricts the values of the alias types beyond
membership in IEEE-754 binary64: every 64-bit pattern d is a value of each
of the six alias types; this includes the quiet-NaN pattern and both
infinity patterns; and the header declares no operation that could
constrain the values. -/
theorem C4_no_value_invariant :
    (∀ d : Double,
      (∃ t : Time, t = d) ∧ (∃ o : Observation, o = d) ∧ (∃ m : Mean, m = d) ∧
      (∃ s : SD, s = d) ∧ (∃ l : LogLikelihood, l = d) ∧ (∃ r : Rp, r = d)) ∧
    isNaN64 quietNaN = true ∧ isInf64 posInf = true ∧ isInf64 negInf = true ∧
    headerOperations headerDecls = [] :=
  ⟨fun d => ⟨⟨d, rfl⟩, ⟨d, rfl⟩, ⟨d, rfl⟩, ⟨d, rfl⟩, ⟨d, rfl⟩, ⟨d, rfl⟩⟩,
    by decide, by decide, by decide, rfl⟩

/-- Claim C5: the header exports no operation that can fail: it declares no
functions at all (every declaration is an alias declaration), so the set of
operations of the embedded interface is empty. -/
theorem C5_no_failing_operations :
    headerOperations headerDecls = [] ∧ headerDecls.all Decl.isAlias = true := by
  exact ⟨rfl, rfl⟩

/-- Claim C6: the header introduces no runtime entities and touches no
state: every one of its declarations is a compile-time alias declaration,
and including the header into any program state leaves the runtime part of
that state unchanged. -/
theorem C6_no_runtime_effect (σ : Type) (s t : ProgState σ)
    (h : includeHeader s = some t) :
    t.runtime = s.runtime ∧ headerDecls.all Decl.isAlias = true := by
  refine ⟨?_, rfl⟩
  cases hm : processDecls headerDecls s.typedefs with
  | none => simp [includeHeader, hm] at h
  | some e =>
    simp only [includeHeader, hm, Option.map_some', Option.some.injEq] at h
    rw [← h]

/-- Witness for claim C6: including the header into the empty program state
over runtime states of type Nat succeeds and leaves the runtime state 0
unchanged. -/
theorem C6_no_runtime_effect_witness :
    (ProgState.mk headerEnv (0 : Nat)).runtime = (ProgState.mk [] (0 : Nat)).runtime ∧
    headerDecls.all Decl.isAlias = true :=
  C6_no_runtime_effect Nat (ProgState.mk [] 0) (ProgState.mk headerEnv 0) rfl

/-- Claim C7: the header compiles standalone given only the builtin numeric
primitive: it contains no #include directive, every type it references is
the builtin `double`, and processing it from the empty typedef environment
succeeds. -/
theorem C7_standalone :
    headerDecls.all (fun d => ! d.isIncl) = true ∧
    (referencedTypes headerDecls).all (fun t => t == CType.double) = true ∧
    (processDecls headerDecls []).isSome = true := by
  decide

/-- Claim C8: the six aliases are pairwise interchangeable: any two of the
alias types are equal (so a value of one is accepted where the other is
expected, by the identity conversion, e.g. an SD where a Mean is required),
and any two of the declared alias bindings carry the same underlying type. -/
theorem C8_pairwise_interchangeable :
    Time = Observation ∧ Time = Mean ∧ Time = SD ∧ Time = LogLikelihood ∧
    Time = Rp ∧ Observation = Mean ∧ Observation = SD ∧
    Observation = LogLikelihood ∧ Observation = Rp ∧ Mean = SD ∧
    Mean = LogLikelihood ∧ Mean = Rp ∧ SD = LogLikelihood ∧ SD = Rp ∧
    LogLikelihood = Rp ∧
    (∀ x : SD, (id x : Mean) = x) ∧
    headerAliases.all (fun p => headerAliases.all (fun q => p.2 == q.2)) = true :=
  ⟨rfl, rfl, rfl, rfl, rfl, rfl, rfl, rfl, rfl, rfl, rfl, rfl, rfl, rfl, rfl,
    fun _ => rfl, by decide⟩

/-- Claim C9: textual inclusion of the header is idempotent: processing the
header's alias declarations twice from the empty environment yields the
same environment as processing them once, and re-processing the header
against the environment it already produced returns that environment
unchanged, since each re-declaration binds the same name to `double` again. -/
theorem C9_inclusion_idempotent :
    processDecls (headerDecls ++ headerDecls) [] = processDecls headerDecls [] ∧
    processDecls headerDecls headerEnv = some headerEnv := by
  decide

end Epiforecast
